import Mathlib

/-!
# Verification of the oxr-game-upscaler dispatch/query core

Shallow embedding of the Rust sources of crates `oxr-dll` (query.rs, dispatch.rs),
`oxr-amd-fidelityfx-dx12` (context.rs) and `fsr-sys` (api.rs, types.rs, upscale.rs).

Modelling conventions:
* Machine integers (`u32`, `u64`) are modelled by `Nat`, `i32` by `Int`.  Where an
  overflow, truncating remainder, or saturating cast matters it is modelled explicitly
  at that point (see `halton_jitter` and `query_jitter_phase_count`).
* The `f32` arithmetic of the render-resolution and jitter-phase-count queries is
  modelled at the machine level by the `F32` type: IEEE-754 binary32 values as
  significand × 2^exponent, with correctly-rounded (nearest-even) u32→f32 conversion,
  division and multiplication, and saturating float→integer casts.  `f32round` is the
  mathematical round-half-away-from-zero rule, used for spec-side formulas.  The
  ratio lookup table and the Halton sequence are kept as exact rationals at their
  written literal values: the table claim cannot observe the `2^-25` difference of
  the `1.7` literal, and every Halton value this file evaluates is a small dyadic
  rational that is exact in `f32` (the periodicity theorem is an equality of two
  identical computations, so it holds in any arithmetic).
* Raw pointers are modelled by `Ptr` (null or an abstract address); C structs become
  Lean structures with the source field names; a polymorphic descriptor pointer becomes
  an `Option` of a record holding the type tag together with the payload views that the
  code may reinterpret it as.
* Recording GPU commands into an `ID3D12GraphicsCommandList` is modelled by returning
  the list of recorded commands (`GpuCommand`); log statements are not modelled.
-/

/-! ## Constants from `fsr-sys` (api.rs, types.rs, upscale.rs) -/

def FFX_API_RETURN_OK : Nat := 0

def FFX_API_RETURN_ERROR_UNKNOWN_DESCTYPE : Nat := 2

def FFX_API_RETURN_ERROR_PARAMETER : Nat := 6

def FFX_API_RESOURCE_STATE_COMMON : Nat := 1 <<< 0

def FFX_API_RESOURCE_STATE_UNORDERED_ACCESS : Nat := 1 <<< 1

def FFX_API_RESOURCE_STATE_COMPUTE_READ : Nat := 1 <<< 2

def FFX_API_RESOURCE_STATE_PIXEL_READ : Nat := 1 <<< 3

def FFX_API_RESOURCE_STATE_COPY_SRC : Nat := 1 <<< 4

def FFX_API_RESOURCE_STATE_COPY_DEST : Nat := 1 <<< 5

def FFX_API_RESOURCE_STATE_INDIRECT_ARGUMENT : Nat := 1 <<< 6

def FFX_API_RESOURCE_STATE_PRESENT : Nat := 1 <<< 7

def FFX_API_RESOURCE_STATE_RENDER_TARGET : Nat := 1 <<< 8

def FFX_API_RESOURCE_STATE_DEPTH_ATTACHMENT : Nat := 1 <<< 9

def FFX_API_DISPATCH_DESC_TYPE_UPSCALE : Nat := 0x00010001

def FFX_API_QUERY_DESC_TYPE_UPSCALE_GETUPSCALERATIOFROMQUALITYMODE : Nat := 0x00010002

def FFX_API_QUERY_DESC_TYPE_UPSCALE_GETRENDERRESOLUTIONFROMQUALITYMODE : Nat := 0x00010003

def FFX_API_QUERY_DESC_TYPE_UPSCALE_GETJITTERPHASECOUNT : Nat := 0x00010004

def FFX_API_QUERY_DESC_TYPE_UPSCALE_GETJITTEROFFSET : Nat := 0x00010005

def FFX_API_DISPATCH_DESC_TYPE_UPSCALE_GENERATEREACTIVEMASK : Nat := 0x00010006

def FFX_UPSCALE_QUALITY_MODE_NATIVEAA : Nat := 0

def FFX_UPSCALE_QUALITY_MODE_QUALITY : Nat := 1

def FFX_UPSCALE_QUALITY_MODE_BALANCED : Nat := 2

def FFX_UPSCALE_QUALITY_MODE_PERFORMANCE : Nat := 3

def FFX_UPSCALE_QUALITY_MODE_ULTRA_PERFORMANCE : Nat := 4

/-! ## D3D12 resource-state values (numeric values of `D3D12_RESOURCE_STATES`
from the Direct3D 12 headers, as re-exported by the `windows` crate) -/

def D3D12_RESOURCE_STATE_COMMON : Nat := 0

def D3D12_RESOURCE_STATE_RENDER_TARGET : Nat := 0x4

def D3D12_RESOURCE_STATE_UNORDERED_ACCESS : Nat := 0x8

def D3D12_RESOURCE_STATE_NON_PIXEL_SHADER_RESOURCE : Nat := 0x40

def D3D12_RESOURCE_STATE_PIXEL_SHADER_RESOURCE : Nat := 0x80

def D3D12_RESOURCE_STATE_INDIRECT_ARGUMENT : Nat := 0x200

def D3D12_RESOURCE_STATE_COPY_DEST : Nat := 0x400

def D3D12_RESOURCE_STATE_COPY_SOURCE : Nat := 0x800

/-- `D3D12_RESOURCE_STATE_PRESENT` is numerically zero, the same value as
`D3D12_RESOURCE_STATE_COMMON`. -/
def D3D12_RESOURCE_STATE_PRESENT : Nat := 0

def D3D12_RESOURCE_BARRIER_ALL_SUBRESOURCES : Nat := 0xffffffff

/-! ## Pointers -/

/-- A raw pointer: null, or an abstract nonzero address. -/
inductive Ptr where
  | null : Ptr
  | addr (a : Nat) : Ptr
deriving DecidableEq, Repr

/-! ## Float model

Two levels are used.  `f32round : Rat → Int` is the *mathematical* rounding rule
of `f32::round` (round half away from zero) on exact rationals; it is used to
state the spec's exact-arithmetic formulas.  The `F32` structure below is the
*machine* model: an IEEE-754 binary32 value in the normal range, written as
significand × 2^exponent, with correctly-rounded (round-to-nearest, ties-to-even)
conversion, division and multiplication.  The query arithmetic of query.rs is
embedded over `F32`, so u32→f32 conversion error and f32 operation rounding are
modelled faithfully.  Signs, subnormals, infinities and NaN are not modelled:
every value reaching these operations in the modelled code paths is nonnegative
and far inside the normal range (binary exponents stay below 70, while the loop
fuel 300 covers every value derived from u32 inputs). -/

/-- Rust `f32::round` as a mathematical rule: round half away from zero on exact
rationals.  Used for spec-side formulas; the machine model is `F32.roundToInt`. -/
def f32round (q : Rat) : Int :=
  if 0 ≤ q then ⌊q + 1/2⌋ else -⌊-q + 1/2⌋

/-- A nonnegative IEEE-754 binary32 value in the normal range: the rational
`m * 2^e`.  `m = 0` encodes zero; values built by `roundF32` have
`2^23 ≤ m ≤ 2^24`. -/
structure F32 where
  m : Nat
  e : Int
deriving DecidableEq, Repr

/-- Normalization loop of `roundF32`: doubles the numerator or the denominator
of the positive fraction n/d until n/d ∈ [2^23, 2^24), adjusting the binary
exponent to keep `n/d · 2^e` constant.  Fuel 300 covers every exponent
reachable from u32-derived inputs (|e| < 70 in this program). -/
def f32normLoop : Nat → Nat → Nat → Int → Nat × Nat × Int
  | 0, n, d, e => (n, d, e)
  | fuel + 1, n, d, e =>
    if n < 8388608 * d then f32normLoop fuel (2 * n) d (e - 1)
    else if 16777216 * d ≤ n then f32normLoop fuel n (2 * d) (e + 1)
    else (n, d, e)

/-- Round the nonnegative rational n/d to the nearest IEEE binary32 value,
ties to even (the IEEE default mode, used by Rust for `as f32` conversions,
`/` and `*`): normalize so the significand lies in [2^23, 2^24), then round it
to an integer half-to-even. -/
def roundF32 (n d : Nat) : F32 :=
  if n = 0 ∨ d = 0 then { m := 0, e := 0 }
  else
    match f32normLoop 300 n d 0 with
    | (n2, d2, e) =>
      let fl := n2 / d2
      let r := n2 % d2
      let m := if 2 * r < d2 then fl
               else if d2 < 2 * r then fl + 1
               else if fl % 2 = 0 then fl else fl + 1
      { m := m, e := e }

/-- The exact rational value of an `F32`. -/
def F32.toRat (x : F32) : Rat :=
  if 0 ≤ x.e then (x.m : Rat) * (2 : Rat) ^ x.e.toNat
  else (x.m : Rat) / (2 : Rat) ^ (-x.e).toNat

/-- Rust `n as f32` for a `u32` value: correctly rounded conversion. -/
def F32.ofNat (n : Nat) : F32 := roundF32 n 1

/-- Correctly rounded f32 division: round the exact quotient
`(a.m · 2^a.e) / (b.m · 2^b.e)`, written as a fraction of naturals. -/
def F32.div (a b : F32) : F32 :=
  if 0 ≤ a.e - b.e then roundF32 (a.m * 2 ^ (a.e - b.e).toNat) b.m
  else roundF32 a.m (b.m * 2 ^ (b.e - a.e).toNat)

/-- Correctly rounded f32 multiplication: the exact product is
`(a.m · b.m) · 2^(a.e + b.e)`, and scaling by a power of two is exact, so it
suffices to round the integer significand product. -/
def F32.mul (a b : F32) : F32 :=
  let r := roundF32 (a.m * b.m) 1
  { m := r.m, e := r.e + a.e + b.e }

/-- Rust `f32::round` (half away from zero) on a nonnegative `F32`, as the exact
integer the rounded float denotes (`.round()` of an f32 is always exactly
representable, and a subsequent integer `as`-cast truncates it to itself). -/
def F32.roundToInt (x : F32) : Int :=
  if 0 ≤ x.e then (x.m : Int) * 2 ^ x.e.toNat
  else
    let d := 2 ^ (-x.e).toNat
    ((x.m / d : Nat) : Int) + (if d ≤ 2 * (x.m % d) then 1 else 0)

/-- Rust `f32::ceil` on a nonnegative `F32`, as the exact integer it denotes. -/
def F32.ceilToInt (x : F32) : Int :=
  if 0 ≤ x.e then (x.m : Int) * 2 ^ x.e.toNat
  else
    let d := 2 ^ (-x.e).toNat
    ((x.m / d : Nat) : Int) + (if x.m % d = 0 then 0 else 1)

/-! ## Quality/jitter query engine — `oxr-dll/src/query.rs` -/

/-- Standard FSR upscale ratios per quality mode (`upscale_ratio_for_mode`,
query.rs lines 31-40).  The source matches on the quality-mode constants and
defaults to `1.0`; the `f32` literal `1.7` is modelled by `17/10`. -/
def upscale_ratio_for_mode (quality_mode : Nat) : Rat :=
  if quality_mode = FFX_UPSCALE_QUALITY_MODE_NATIVEAA then 1
  else if quality_mode = FFX_UPSCALE_QUALITY_MODE_QUALITY then 3/2
  else if quality_mode = FFX_UPSCALE_QUALITY_MODE_BALANCED then 17/10
  else if quality_mode = FFX_UPSCALE_QUALITY_MODE_PERFORMANCE then 2
  else if quality_mode = FFX_UPSCALE_QUALITY_MODE_ULTRA_PERFORMANCE then 3
  else 1

/-- The same ratio table at the machine level: the `f32` constants the compiler
produces for the source literals 1.0, 1.5, 1.7, 2.0, 3.0 — i.e. each written
fraction of `upscale_ratio_for_mode` rounded to binary32 (only 1.7 is inexact:
`roundF32 17 10` has the value 14260634/2^23 ≈ 1.70000005).  Used where query.rs
consumes the ratio in f32 arithmetic. -/
def upscale_ratio_for_mode_f32 (quality_mode : Nat) : F32 :=
  if quality_mode = FFX_UPSCALE_QUALITY_MODE_NATIVEAA then roundF32 1 1
  else if quality_mode = FFX_UPSCALE_QUALITY_MODE_QUALITY then roundF32 3 2
  else if quality_mode = FFX_UPSCALE_QUALITY_MODE_BALANCED then roundF32 17 10
  else if quality_mode = FFX_UPSCALE_QUALITY_MODE_PERFORMANCE then roundF32 2 1
  else if quality_mode = FFX_UPSCALE_QUALITY_MODE_ULTRA_PERFORMANCE then roundF32 3 1
  else roundF32 1 1

/-- Loop body of `halton` (query.rs lines 143-155), with an explicit fuel bound.
For the bases 2 and 3 — the only bases the program uses — the source loop runs
`⌊log_base index⌋ + 1 ≤ index` times, so fuel `index` makes the model exact. -/
def haltonLoop : Nat → Nat → Nat → Rat → Rat → Rat
  | 0, _, _, _, r => r
  | fuel + 1, index, base, f, r =>
    if index = 0 then r
    else
      let f2 := f * (1 / (base : Rat))
      let r2 := r + f2 * ((index % base : Nat) : Rat)
      haltonLoop fuel (index / base) base f2 r2

/-- Halton sequence value for a given index and base (`halton`, query.rs 143-155). -/
def halton (index base : Nat) : Rat :=
  haltonLoop index index base 1 0

/-- Halton sequence jitter, bases 2 and 3, centered around 0 (`halton_jitter`,
query.rs 132-140).  Rust `%` on `i32` is the truncating remainder (`Int.tmod`);
the source computes `((index % phase_count) + phase_count) as u32` with no
further reduction.  The sum lies in `(0, 2^32)`, so the `as u32` cast is the
mathematical value (`toNat`). -/
def halton_jitter (index phase_count : Int) : Rat × Rat :=
  if phase_count ≤ 0 then (0, 0)
  else
    let i : Nat := (Int.tmod index phase_count + phase_count).toNat
    (halton (i + 1) 2 - 1/2, halton (i + 1) 3 - 1/2)

/-- A write performed through one of the query descriptors' output pointers. -/
inductive QWrite where
  | upscaleRatioOut (v : Rat) : QWrite
  | renderWidthOut (v : Nat) : QWrite
  | renderHeightOut (v : Nat) : QWrite
  | phaseCountOut (v : Int) : QWrite
  | jitterXOut (v : Rat) : QWrite
  | jitterYOut (v : Rat) : QWrite
deriving DecidableEq, Repr

/-- `ffxQueryDescUpscaleGetUpscaleRatioFromQualityMode` (fsr-sys/upscale.rs):
payload fields plus nullness of the output pointer. -/
structure ffxQueryDescUpscaleGetUpscaleRatioFromQualityMode where
  quality_mode : Nat
  p_out_upscale_ratio_null : Bool
deriving DecidableEq, Repr

structure ffxQueryDescUpscaleGetRenderResolutionFromQualityMode where
  display_width : Nat
  display_height : Nat
  quality_mode : Nat
  p_out_render_width_null : Bool
  p_out_render_height_null : Bool
deriving DecidableEq, Repr

structure ffxQueryDescUpscaleGetJitterPhaseCount where
  render_width : Nat
  display_width : Nat
  p_out_phase_count_null : Bool
deriving DecidableEq, Repr

structure ffxQueryDescUpscaleGetJitterOffset where
  index : Int
  phase_count : Int
  p_out_x_null : Bool
  p_out_y_null : Bool
deriving DecidableEq, Repr

/-- `query_upscale_ratio` (query.rs 42-57): compute the ratio, write it if the
output pointer is non-null, return OK. -/
def query_upscale_ratio (d : ffxQueryDescUpscaleGetUpscaleRatioFromQualityMode) :
    Nat × List QWrite :=
  let r := upscale_ratio_for_mode d.quality_mode
  (FFX_API_RETURN_OK,
    if d.p_out_upscale_ratio_null then [] else [QWrite.upscaleRatioOut r])

/-- `query_render_resolution` (query.rs 59-81):
`(display as f32 / ratio).round() as u32` per axis, in full f32 semantics:
the u32→f32 conversion rounds to nearest-even (inexact above 2^24), the f32
division is correctly rounded, `.round()` rounds half away from zero, and the
float→u32 `as` cast saturates (the value is nonnegative, so only the upper
bound u32::MAX = 4294967295 is reachable — e.g. display 2^32-1 converts to the
f32 2^32). -/
def query_render_resolution (d : ffxQueryDescUpscaleGetRenderResolutionFromQualityMode) :
    Nat × List QWrite :=
  let r := upscale_ratio_for_mode_f32 d.quality_mode
  let render_w : Nat := min ((F32.div (F32.ofNat d.display_width) r).roundToInt).toNat 4294967295
  let render_h : Nat := min ((F32.div (F32.ofNat d.display_height) r).roundToInt).toNat 4294967295
  (FFX_API_RETURN_OK,
    (if d.p_out_render_width_null then [] else [QWrite.renderWidthOut render_w]) ++
    (if d.p_out_render_height_null then [] else [QWrite.renderHeightOut render_h]))

/-- `query_jitter_phase_count` (query.rs 83-106):
`(8.0 * ratio * ratio).ceil() as i32` with `ratio = display as f32 / render as
f32` when `render_width > 0`, else the exact literal `1.0`, in full f32
semantics: correctly rounded conversions, division and (left-associated)
multiplications; `.ceil()` of an f32 is exact; the float→i32 `as` cast
saturates, and the value is nonnegative, so only i32::MAX = 2147483647 is
reachable. -/
def query_jitter_phase_count (d : ffxQueryDescUpscaleGetJitterPhaseCount) :
    Nat × List QWrite :=
  let r : F32 :=
    if d.render_width > 0 then F32.div (F32.ofNat d.display_width) (F32.ofNat d.render_width)
    else F32.ofNat 1
  let phase_count : Int := min (F32.mul (F32.mul (F32.ofNat 8) r) r).ceilToInt 2147483647
  (FFX_API_RETURN_OK,
    if d.p_out_phase_count_null then [] else [QWrite.phaseCountOut phase_count])

/-- `query_jitter_offset` (query.rs 108-129). -/
def query_jitter_offset (d : ffxQueryDescUpscaleGetJitterOffset) : Nat × List QWrite :=
  let xy := halton_jitter d.index d.phase_count
  (FFX_API_RETURN_OK,
    (if d.p_out_x_null then [] else [QWrite.jitterXOut xy.1]) ++
    (if d.p_out_y_null then [] else [QWrite.jitterYOut xy.2]))

/-- The memory a non-null `ffxQueryDescHeader*` points to: the header's type tag,
together with the payload views the code may reinterpret the pointer as
(one per `FFX_API_QUERY_DESC_TYPE_*` case). -/
structure QueryDescMemory where
  type_ : Nat
  getUpscaleRatio : ffxQueryDescUpscaleGetUpscaleRatioFromQualityMode
  getRenderResolution : ffxQueryDescUpscaleGetRenderResolutionFromQualityMode
  getJitterPhaseCount : ffxQueryDescUpscaleGetJitterPhaseCount
  getJitterOffset : ffxQueryDescUpscaleGetJitterOffset
deriving DecidableEq, Repr

/-- `handle_query` (query.rs 4-28).  The `_context` argument is accepted and
ignored, exactly as in the source. -/
def handle_query (_context : Ptr) (desc : Option QueryDescMemory) : Nat × List QWrite :=
  match desc with
  | none => (FFX_API_RETURN_ERROR_PARAMETER, [])
  | some d =>
    if d.type_ = FFX_API_QUERY_DESC_TYPE_UPSCALE_GETUPSCALERATIOFROMQUALITYMODE then
      query_upscale_ratio d.getUpscaleRatio
    else if d.type_ = FFX_API_QUERY_DESC_TYPE_UPSCALE_GETRENDERRESOLUTIONFROMQUALITYMODE then
      query_render_resolution d.getRenderResolution
    else if d.type_ = FFX_API_QUERY_DESC_TYPE_UPSCALE_GETJITTERPHASECOUNT then
      query_jitter_phase_count d.getJitterPhaseCount
    else if d.type_ = FFX_API_QUERY_DESC_TYPE_UPSCALE_GETJITTEROFFSET then
      query_jitter_offset d.getJitterOffset
    else
      (FFX_API_RETURN_ERROR_UNKNOWN_DESCTYPE, [])

/-! ## Resource-state translation and dispatch engine — `oxr-dll/src/dispatch.rs` -/

/-- `ffx_state_to_d3d12` (dispatch.rs 156-190): OR together the D3D12 equivalent
of every set FFX state bit; if nothing accumulated and the common bit is set,
force the D3D12 common state.  The source has no case for
`FFX_API_RESOURCE_STATE_DEPTH_ATTACHMENT`.  (The copy of this function in
fsr3-upscaler-proxy/src/dispatch.rs 129-163 is line-for-line identical, with the
same bit constants declared locally.) -/
def ffx_state_to_d3d12 (state : Nat) : Nat :=
  let d3d_state : Nat := 0
  let d3d_state :=
    if state &&& FFX_API_RESOURCE_STATE_UNORDERED_ACCESS ≠ 0 then
      d3d_state ||| D3D12_RESOURCE_STATE_UNORDERED_ACCESS
    else d3d_state
  let d3d_state :=
    if state &&& FFX_API_RESOURCE_STATE_COMPUTE_READ ≠ 0 then
      d3d_state ||| D3D12_RESOURCE_STATE_NON_PIXEL_SHADER_RESOURCE
    else d3d_state
  let d3d_state :=
    if state &&& FFX_API_RESOURCE_STATE_PIXEL_READ ≠ 0 then
      d3d_state ||| D3D12_RESOURCE_STATE_PIXEL_SHADER_RESOURCE
    else d3d_state
  let d3d_state :=
    if state &&& FFX_API_RESOURCE_STATE_COPY_SRC ≠ 0 then
      d3d_state ||| D3D12_RESOURCE_STATE_COPY_SOURCE
    else d3d_state
  let d3d_state :=
    if state &&& FFX_API_RESOURCE_STATE_COPY_DEST ≠ 0 then
      d3d_state ||| D3D12_RESOURCE_STATE_COPY_DEST
    else d3d_state
  let d3d_state :=
    if state &&& FFX_API_RESOURCE_STATE_RENDER_TARGET ≠ 0 then
      d3d_state ||| D3D12_RESOURCE_STATE_RENDER_TARGET
    else d3d_state
  let d3d_state :=
    if state &&& FFX_API_RESOURCE_STATE_PRESENT ≠ 0 then
      d3d_state ||| D3D12_RESOURCE_STATE_PRESENT
    else d3d_state
  let d3d_state :=
    if state &&& FFX_API_RESOURCE_STATE_INDIRECT_ARGUMENT ≠ 0 then
      d3d_state ||| D3D12_RESOURCE_STATE_INDIRECT_ARGUMENT
    else d3d_state
  if d3d_state = 0 ∧ state &&& FFX_API_RESOURCE_STATE_COMMON ≠ 0 then
    D3D12_RESOURCE_STATE_COMMON
  else d3d_state

/-- `FfxApiResourceDescription` (fsr-sys/types.rs). -/
structure FfxApiResourceDescription where
  type_ : Nat
  format : Nat
  width : Nat
  height : Nat
  depth : Nat
  mip_count : Nat
  flags : Nat
  usage : Nat
deriving DecidableEq, Repr

/-- `FfxApiResource` (fsr-sys/types.rs): borrowed native handle, description,
caller-declared abstract state bitmask. -/
structure FfxApiResource where
  resource : Ptr
  description : FfxApiResourceDescription
  state : Nat
deriving DecidableEq, Repr

/-- `FfxApiDimensions2D` (fsr-sys/types.rs). -/
structure FfxApiDimensions2D where
  width : Nat
  height : Nat
deriving DecidableEq, Repr

/-- The fields of `ffxDispatchDescUpscale` (fsr-sys/upscale.rs) that
`dispatch_upscale` reads for behavior.  The remaining fields (depth,
motion_vectors, exposure, reactive, transparency_and_composition,
jitter_offset, motion_vector_scale, sharpness, frame time, camera block,
flags) are only logged or unused by the modelled code path. -/
structure ffxDispatchDescUpscale where
  command_list : Ptr
  color : FfxApiResource
  output : FfxApiResource
  render_size : FfxApiDimensions2D
  upscale_size : FfxApiDimensions2D
deriving DecidableEq, Repr

/-- `D3D12_RESOURCE_TRANSITION_BARRIER`: the transition payload of a
`D3D12_RESOURCE_BARRIER` whose Type is TRANSITION and Flags is NONE (the only
kind this program builds). -/
structure D3D12_RESOURCE_TRANSITION_BARRIER where
  pResource : Ptr
  Subresource : Nat
  StateBefore : Nat
  StateAfter : Nat
deriving DecidableEq, Repr

/-- `D3D12_BOX`. -/
structure D3D12_BOX where
  left : Nat
  top : Nat
  front : Nat
  right : Nat
  bottom : Nat
  back : Nat
deriving DecidableEq, Repr

/-- A GPU command recorded into the command list by the modelled code. -/
inductive GpuCommand where
  | resourceBarrierCall (barriers : List D3D12_RESOURCE_TRANSITION_BARRIER) : GpuCommand
  | copyTextureRegion (dst : Ptr) (dstX dstY dstZ : Nat) (src : Ptr) (srcBox : D3D12_BOX) :
      GpuCommand
deriving DecidableEq, Repr

/-- `resource_barrier_transition_d3d12` (dispatch.rs 203-225): `None` when the
states are equal, otherwise one transition barrier over all subresources. -/
def resource_barrier_transition_d3d12 (resource : Ptr) (state_before state_after : Nat) :
    Option D3D12_RESOURCE_TRANSITION_BARRIER :=
  if state_before = state_after then none
  else
    some { pResource := resource,
           Subresource := D3D12_RESOURCE_BARRIER_ALL_SUBRESOURCES,
           StateBefore := state_before,
           StateAfter := state_after }

/-- `resource_barrier_transition` (dispatch.rs 193-200): translate the FFX
before-state, then build the barrier. -/
def resource_barrier_transition (resource : Ptr) (state_before_ffx : Nat) (state_after : Nat) :
    Option D3D12_RESOURCE_TRANSITION_BARRIER :=
  resource_barrier_transition_d3d12 resource (ffx_state_to_d3d12 state_before_ffx) state_after

/-- `dispatch_upscale` (dispatch.rs 28-153): validate pointers, barrier color →
COPY_SOURCE and output → COPY_DEST (skipping the native call when the batch is
empty after `None`-elision), copy the render-size region (falling back to the
color extent per axis when a render dimension is zero) to the output's top-left
corner, then barrier both resources back to the translation of their declared
states. -/
def dispatch_upscale (d : ffxDispatchDescUpscale) : Nat × List GpuCommand :=
  if d.command_list = Ptr.null then (FFX_API_RETURN_ERROR_PARAMETER, [])
  else if d.color.resource = Ptr.null ∨ d.output.resource = Ptr.null then
    (FFX_API_RETURN_ERROR_PARAMETER, [])
  else
    let barriers_before :=
      [resource_barrier_transition d.color.resource d.color.state
         D3D12_RESOURCE_STATE_COPY_SOURCE,
       resource_barrier_transition d.output.resource d.output.state
         D3D12_RESOURCE_STATE_COPY_DEST]
    let valid_before := barriers_before.filterMap id
    let cmds_before :=
      if valid_before.isEmpty then [] else [GpuCommand.resourceBarrierCall valid_before]
    let src_w := if d.render_size.width > 0 then d.render_size.width else d.color.description.width
    let src_h :=
      if d.render_size.height > 0 then d.render_size.height else d.color.description.height
    let src_box : D3D12_BOX :=
      { left := 0, top := 0, front := 0, right := src_w, bottom := src_h, back := 1 }
    let copy := GpuCommand.copyTextureRegion d.output.resource 0 0 0 d.color.resource src_box
    let barriers_after :=
      [resource_barrier_transition_d3d12 d.color.resource D3D12_RESOURCE_STATE_COPY_SOURCE
         (ffx_state_to_d3d12 d.color.state),
       resource_barrier_transition_d3d12 d.output.resource D3D12_RESOURCE_STATE_COPY_DEST
         (ffx_state_to_d3d12 d.output.state)]
    let valid_after := barriers_after.filterMap id
    let cmds_after :=
      if valid_after.isEmpty then [] else [GpuCommand.resourceBarrierCall valid_after]
    (FFX_API_RETURN_OK, cmds_before ++ [copy] ++ cmds_after)

/-- The memory a non-null `ffxDispatchDescHeader*` points to: the type tag plus
the upscale payload view the code may reinterpret the pointer as. -/
structure DispatchDescMemory where
  type_ : Nat
  upscale : ffxDispatchDescUpscale
deriving DecidableEq, Repr

/-- `handle_dispatch` (dispatch.rs 5-26).  The `_context` argument is accepted
and ignored, exactly as in the source; the generate-reactive-mask type is a
recognized no-op. -/
def handle_dispatch (_context : Ptr) (desc : Option DispatchDescMemory) :
    Nat × List GpuCommand :=
  match desc with
  | none => (FFX_API_RETURN_ERROR_PARAMETER, [])
  | some d =>
    if d.type_ = FFX_API_DISPATCH_DESC_TYPE_UPSCALE then dispatch_upscale d.upscale
    else if d.type_ = FFX_API_DISPATCH_DESC_TYPE_UPSCALE_GENERATEREACTIVEMASK then
      (FFX_API_RETURN_OK, [])
    else
      (FFX_API_RETURN_ERROR_UNKNOWN_DESCTYPE, [])

/-! ## Context store — `oxr-amd-fidelityfx-dx12/src/context.rs` -/

/-- `OxrContext` (context.rs 8-14). -/
structure OxrContext where
  max_render_size : FfxApiDimensions2D
  max_upscale_size : FfxApiDimensions2D
  flags : Nat
  device : Ptr
deriving DecidableEq, Repr

/-- The memory `destroy_context` can touch: the cells an `ffxContext*` handle
may point to (each holding an `ffxContext`, i.e. a possibly-null pointer to a
heap `OxrContext`), and the allocated `OxrContext` records themselves. -/
structure ContextHeap where
  cells : Nat → Ptr
  ctxs : Nat → Option OxrContext

/-- `destroy_context` (context.rs 65-85): parameter error when the handle or its
pointee is null (memory untouched); otherwise free the context record
(`Box::from_raw` + drop), null out the handle's pointee, return OK. -/
def destroy_context (context : Ptr) (h : ContextHeap) : Nat × ContextHeap :=
  match context with
  | Ptr.null => (FFX_API_RETURN_ERROR_PARAMETER, h)
  | Ptr.addr a =>
    match h.cells a with
    | Ptr.null => (FFX_API_RETURN_ERROR_PARAMETER, h)
    | Ptr.addr c =>
      (FFX_API_RETURN_OK,
       { cells := fun x => if x = a then Ptr.null else h.cells x,
         ctxs := fun x => if x = c then none else h.ctxs x })

/-! ## Example values used by the claim witnesses -/

def exampleResourceDescription : FfxApiResourceDescription :=
  { type_ := 2, format := 10, width := 1920, height := 1080, depth := 1, mip_count := 1,
    flags := 0, usage := 1 }

def exampleColorResource : FfxApiResource :=
  { resource := Ptr.addr 2, description := exampleResourceDescription,
    state := FFX_API_RESOURCE_STATE_PIXEL_READ }

def exampleOutputResource : FfxApiResource :=
  { resource := Ptr.addr 3, description := exampleResourceDescription,
    state := FFX_API_RESOURCE_STATE_COMMON }

def exampleUpscaleDesc : ffxDispatchDescUpscale :=
  { command_list := Ptr.addr 1, color := exampleColorResource, output := exampleOutputResource,
    render_size := { width := 1280, height := 720 },
    upscale_size := { width := 1920, height := 1080 } }

def exampleUnknownDispatchDesc : DispatchDescMemory :=
  { type_ := 0, upscale := exampleUpscaleDesc }

def exampleReactiveDispatchDesc : DispatchDescMemory :=
  { type_ := FFX_API_DISPATCH_DESC_TYPE_UPSCALE_GENERATEREACTIVEMASK,
    upscale := exampleUpscaleDesc }

def exampleNullCmdDispatchDesc : DispatchDescMemory :=
  { type_ := FFX_API_DISPATCH_DESC_TYPE_UPSCALE,
    upscale := { exampleUpscaleDesc with command_list := Ptr.null } }

def exampleNullColorDispatchDesc : DispatchDescMemory :=
  { type_ := FFX_API_DISPATCH_DESC_TYPE_UPSCALE,
    upscale := { exampleUpscaleDesc with
      color := { exampleColorResource with resource := Ptr.null } } }

def exampleUpscaleDispatchDesc : DispatchDescMemory :=
  { type_ := FFX_API_DISPATCH_DESC_TYPE_UPSCALE, upscale := exampleUpscaleDesc }

def exampleContext : OxrContext :=
  { max_render_size := { width := 1920, height := 1080 },
    max_upscale_size := { width := 3840, height := 2160 },
    flags := 0, device := Ptr.null }

def exampleContextHeap : ContextHeap :=
  { cells := fun x => if x = 0 then Ptr.addr 1 else Ptr.null,
    ctxs := fun x => if x = 1 then some exampleContext else none }

/-! ## Claims -/

/-- C1 counterexample: the claim says every non-common single set bit translates
to a nonzero native state, but the present bit (bit 7) translates to the D3D12
present state, which is numerically 0, and the depth-attachment bit (bit 9) has
no translation case at all and also yields 0. -/
theorem c1_counterexample :
    ffx_state_to_d3d12 FFX_API_RESOURCE_STATE_PRESENT = 0 ∧
    ffx_state_to_d3d12 FFX_API_RESOURCE_STATE_DEPTH_ATTACHMENT = 0 := by decide

/-- C1 (amended): translating each lone bit among bits 1-6 and 8 (unordered
access, compute read, pixel read, copy source, copy destination, indirect
argument, render target) yields a nonzero native state; the common bit yields
the native common state; the present bit yields the native present state, which
is numerically the common value 0; the depth-attachment bit has no translation
case and yields 0; and translating bits 2|3 combined yields exactly the bitwise
OR of the two individual translations. -/
theorem c1_state_translation_table :
    ffx_state_to_d3d12 FFX_API_RESOURCE_STATE_UNORDERED_ACCESS ≠ 0 ∧
    ffx_state_to_d3d12 FFX_API_RESOURCE_STATE_COMPUTE_READ ≠ 0 ∧
    ffx_state_to_d3d12 FFX_API_RESOURCE_STATE_PIXEL_READ ≠ 0 ∧
    ffx_state_to_d3d12 FFX_API_RESOURCE_STATE_COPY_SRC ≠ 0 ∧
    ffx_state_to_d3d12 FFX_API_RESOURCE_STATE_COPY_DEST ≠ 0 ∧
    ffx_state_to_d3d12 FFX_API_RESOURCE_STATE_INDIRECT_ARGUMENT ≠ 0 ∧
    ffx_state_to_d3d12 FFX_API_RESOURCE_STATE_RENDER_TARGET ≠ 0 ∧
    ffx_state_to_d3d12 FFX_API_RESOURCE_STATE_COMMON = D3D12_RESOURCE_STATE_COMMON ∧
    ffx_state_to_d3d12 FFX_API_RESOURCE_STATE_PRESENT = D3D12_RESOURCE_STATE_PRESENT ∧
    D3D12_RESOURCE_STATE_PRESENT = D3D12_RESOURCE_STATE_COMMON ∧
    ffx_state_to_d3d12 FFX_API_RESOURCE_STATE_DEPTH_ATTACHMENT = 0 ∧
    ffx_state_to_d3d12
        (FFX_API_RESOURCE_STATE_COMPUTE_READ ||| FFX_API_RESOURCE_STATE_PIXEL_READ) =
      (ffx_state_to_d3d12 FFX_API_RESOURCE_STATE_COMPUTE_READ |||
        ffx_state_to_d3d12 FFX_API_RESOURCE_STATE_PIXEL_READ) := by decide

/-- C3: `upscale_ratio_for_mode` returns exactly 1.0, 1.5, 1.7, 2.0, 3.0 for the
five defined quality modes, and 1.0 for every other input; it is a total
function, so it never fails. -/
theorem c3_upscale_ratio_table :
    upscale_ratio_for_mode FFX_UPSCALE_QUALITY_MODE_NATIVEAA = 1 ∧
    upscale_ratio_for_mode FFX_UPSCALE_QUALITY_MODE_QUALITY = 3/2 ∧
    upscale_ratio_for_mode FFX_UPSCALE_QUALITY_MODE_BALANCED = 17/10 ∧
    upscale_ratio_for_mode FFX_UPSCALE_QUALITY_MODE_PERFORMANCE = 2 ∧
    upscale_ratio_for_mode FFX_UPSCALE_QUALITY_MODE_ULTRA_PERFORMANCE = 3 ∧
    ∀ m : Nat, FFX_UPSCALE_QUALITY_MODE_ULTRA_PERFORMANCE < m →
      upscale_ratio_for_mode m = 1 := by
  refine ⟨?_, ?_, ?_, ?_, ?_, ?_⟩
  · norm_num [upscale_ratio_for_mode, FFX_UPSCALE_QUALITY_MODE_NATIVEAA]
  · norm_num [upscale_ratio_for_mode, FFX_UPSCALE_QUALITY_MODE_NATIVEAA,
      FFX_UPSCALE_QUALITY_MODE_QUALITY]
  · norm_num [upscale_ratio_for_mode, FFX_UPSCALE_QUALITY_MODE_NATIVEAA,
      FFX_UPSCALE_QUALITY_MODE_QUALITY, FFX_UPSCALE_QUALITY_MODE_BALANCED]
  · norm_num [upscale_ratio_for_mode, FFX_UPSCALE_QUALITY_MODE_NATIVEAA,
      FFX_UPSCALE_QUALITY_MODE_QUALITY, FFX_UPSCALE_QUALITY_MODE_BALANCED,
      FFX_UPSCALE_QUALITY_MODE_PERFORMANCE]
  · norm_num [upscale_ratio_for_mode, FFX_UPSCALE_QUALITY_MODE_NATIVEAA,
      FFX_UPSCALE_QUALITY_MODE_QUALITY, FFX_UPSCALE_QUALITY_MODE_BALANCED,
      FFX_UPSCALE_QUALITY_MODE_PERFORMANCE, FFX_UPSCALE_QUALITY_MODE_ULTRA_PERFORMANCE]
  · intro m hm
    simp only [FFX_UPSCALE_QUALITY_MODE_ULTRA_PERFORMANCE] at hm
    simp only [upscale_ratio_for_mode, FFX_UPSCALE_QUALITY_MODE_NATIVEAA,
      FFX_UPSCALE_QUALITY_MODE_QUALITY, FFX_UPSCALE_QUALITY_MODE_BALANCED,
      FFX_UPSCALE_QUALITY_MODE_PERFORMANCE, FFX_UPSCALE_QUALITY_MODE_ULTRA_PERFORMANCE]
    rw [if_neg (by omega), if_neg (by omega), if_neg (by omega), if_neg (by omega),
      if_neg (by omega)]

/-- C3 witness: mode 9 is outside the defined set and maps to ratio 1. -/
theorem c3_upscale_ratio_table_witness :
    FFX_UPSCALE_QUALITY_MODE_ULTRA_PERFORMANCE < 9 ∧ upscale_ratio_for_mode 9 = 1 :=
  ⟨by decide, c3_upscale_ratio_table.2.2.2.2.2 9 (by decide)⟩

/-- C4 counterexample: the claim's universally quantified rule "divide each
display dimension by ratio_for_quality(mode) and round the result to the
nearest integer" fails on the code: at display_width 16777217 (2^24 + 1),
native-AA mode (ratio 1.0), the u32→f32 conversion rounds ties-to-even down to
16777216.0, so the code writes 16777216 while the exact divide-and-round
formula gives 16777217. -/
theorem c4_counterexample :
    query_render_resolution
        { display_width := 16777217, display_height := 1080,
          quality_mode := FFX_UPSCALE_QUALITY_MODE_NATIVEAA,
          p_out_render_width_null := false, p_out_render_height_null := false } =
      (FFX_API_RETURN_OK,
       [QWrite.renderWidthOut 16777216, QWrite.renderHeightOut 1080]) ∧
    (f32round (((16777217 : Nat) : Rat) /
        upscale_ratio_for_mode FFX_UPSCALE_QUALITY_MODE_NATIVEAA)).toNat = 16777217 ∧
    (16777216 : Nat) ≠ 16777217 := by
  refine ⟨by decide, ?_, by decide⟩
  have h : f32round (((16777217 : Nat) : Rat) /
      upscale_ratio_for_mode FFX_UPSCALE_QUALITY_MODE_NATIVEAA) = 16777217 := by
    norm_num [f32round, upscale_ratio_for_mode, FFX_UPSCALE_QUALITY_MODE_NATIVEAA,
      Int.floor_eq_iff]
  rw [h]
  rfl

/-- C4 (amended): the render-resolution query converts each display dimension
to f32 (round-to-nearest-even), divides by the f32 value of the quality-mode
ratio (correctly rounded f32 division), rounds the quotient to the nearest
integer half away from zero (f32::round — not truncation), and saturates to the
u32 range; in particular (3840, 2160, performance) ↦ (1920, 1080) and
(1920, 1080, balanced) ↦ (1129, 635), matching real f32 arithmetic — the last
conjunct exhibits the balanced-mode f32 quotient 9252141 · 2^-13 ≈ 1129.41. -/
theorem c4_render_resolution :
    (∀ dw dh m : Nat,
      query_render_resolution
          { display_width := dw, display_height := dh, quality_mode := m,
            p_out_render_width_null := false, p_out_render_height_null := false } =
        (FFX_API_RETURN_OK,
         [QWrite.renderWidthOut
            (min ((F32.div (F32.ofNat dw) (upscale_ratio_for_mode_f32 m)).roundToInt).toNat
              4294967295),
          QWrite.renderHeightOut
            (min ((F32.div (F32.ofNat dh) (upscale_ratio_for_mode_f32 m)).roundToInt).toNat
              4294967295)])) ∧
    query_render_resolution
        { display_width := 3840, display_height := 2160,
          quality_mode := FFX_UPSCALE_QUALITY_MODE_PERFORMANCE,
          p_out_render_width_null := false, p_out_render_height_null := false } =
      (FFX_API_RETURN_OK, [QWrite.renderWidthOut 1920, QWrite.renderHeightOut 1080]) ∧
    query_render_resolution
        { display_width := 1920, display_height := 1080,
          quality_mode := FFX_UPSCALE_QUALITY_MODE_BALANCED,
          p_out_render_width_null := false, p_out_render_height_null := false } =
      (FFX_API_RETURN_OK, [QWrite.renderWidthOut 1129, QWrite.renderHeightOut 635]) ∧
    F32.div (F32.ofNat 1920) (upscale_ratio_for_mode_f32 FFX_UPSCALE_QUALITY_MODE_BALANCED) =
      { m := 9252141, e := -13 } :=
  ⟨fun dw dh m => rfl, by decide, by decide, by decide⟩

/-- C5 counterexample: the claim's formula `ceil(8 * (display/render)^2)` fails
in two independent ways.  First, saturation: the result passes through a Rust
float→i32 `as` cast, so at render 1, display 2^31 the code yields
i32::MAX = 2147483647, not ceil(8 · (2^31)²) = 2^65 (every float operation
there is an exact power of two).  Second, f32 rounding: at render 2^20,
display 2^24 + 1 the u32→f32 conversion drops the +1 (ties to even), the f32
ratio is exactly 16.0 and the code yields 8 · 16² = 2048, while the exact
formula gives ceil(2048.000244…) = 2049. -/
theorem c5_counterexample :
    (query_jitter_phase_count
        { render_width := 1, display_width := 2147483648, p_out_phase_count_null := false } =
      (FFX_API_RETURN_OK, [QWrite.phaseCountOut 2147483647]) ∧
     (2147483647 : Int) ≠
       ⌈(8 : Rat) * (((2147483648 : Nat) : Rat) / ((1 : Nat) : Rat)) *
         (((2147483648 : Nat) : Rat) / ((1 : Nat) : Rat))⌉) ∧
    (query_jitter_phase_count
        { render_width := 1048576, display_width := 16777217,
          p_out_phase_count_null := false } =
      (FFX_API_RETURN_OK, [QWrite.phaseCountOut 2048]) ∧
     (2048 : Int) ≠
       ⌈(8 : Rat) * (((16777217 : Nat) : Rat) / ((1048576 : Nat) : Rat)) *
         (((16777217 : Nat) : Rat) / ((1048576 : Nat) : Rat))⌉) := by
  refine ⟨⟨by decide, ?_⟩, ⟨by decide, ?_⟩⟩
  · rw [show (8 : Rat) * (((2147483648 : Nat) : Rat) / ((1 : Nat) : Rat)) *
        (((2147483648 : Nat) : Rat) / ((1 : Nat) : Rat)) = 36893488147419103232 by
        push_cast; norm_num,
      Int.ceil_ofNat]
    norm_num
  · have hc : ⌈(8 : Rat) * (((16777217 : Nat) : Rat) / ((1048576 : Nat) : Rat)) *
        (((16777217 : Nat) : Rat) / ((1048576 : Nat) : Rat))⌉ = (2049 : Int) := by
      rw [show (8 : Rat) * (((16777217 : Nat) : Rat) / ((1048576 : Nat) : Rat)) *
          (((16777217 : Nat) : Rat) / ((1048576 : Nat) : Rat)) =
          281475010265089 / 137438953472 by push_cast; norm_num]
      rw [Int.ceil_eq_iff]
      norm_num
    rw [hc]
    norm_num

/-- C5 (amended): for every render_width > 0 the query returns the f32
evaluation of `ceil(8 * (display/render)^2)` — u32→f32 conversions, the
division and both multiplications correctly rounded to nearest-even —
saturated at i32::MAX = 2147483647; in particular 32 at (960, 1920), where
every operation is exact, and 2048 at (1048576, 16777217), where the conversion
of 2^24 + 1 rounds down; and when render_width is zero the ratio is the exact
literal 1.0, yielding 8 (a defined fallback, not a division fault). -/
theorem c5_jitter_phase_count :
    (∀ w dw : Nat, 0 < w →
      query_jitter_phase_count
          { render_width := w, display_width := dw, p_out_phase_count_null := false } =
        (FFX_API_RETURN_OK,
         [QWrite.phaseCountOut
            (min (F32.mul (F32.mul (F32.ofNat 8) (F32.div (F32.ofNat dw) (F32.ofNat w)))
                (F32.div (F32.ofNat dw) (F32.ofNat w))).ceilToInt
              2147483647)])) ∧
    query_jitter_phase_count
        { render_width := 960, display_width := 1920, p_out_phase_count_null := false } =
      (FFX_API_RETURN_OK, [QWrite.phaseCountOut 32]) ∧
    query_jitter_phase_count
        { render_width := 1048576, display_width := 16777217,
          p_out_phase_count_null := false } =
      (FFX_API_RETURN_OK, [QWrite.phaseCountOut 2048]) ∧
    (∀ dw : Nat,
      query_jitter_phase_count
          { render_width := 0, display_width := dw, p_out_phase_count_null := false } =
        (FFX_API_RETURN_OK, [QWrite.phaseCountOut 8])) := by
  refine ⟨?_, by decide, by decide, ?_⟩
  · intro w dw hw
    simp only [query_jitter_phase_count]
    rw [if_pos hw]
    rfl
  · intro dw
    have h : query_jitter_phase_count
        { render_width := 0, display_width := dw, p_out_phase_count_null := false } =
        (FFX_API_RETURN_OK,
         [QWrite.phaseCountOut
            (min (F32.mul (F32.mul (F32.ofNat 8) (F32.ofNat 1)) (F32.ofNat 1)).ceilToInt
              2147483647)]) := rfl
    rw [h]
    decide

/-- C5 witness: render 2, display 3 → the f32 evaluation of 8 · (3/2)² is
exactly 18 (every operation representable). -/
theorem c5_jitter_phase_count_witness :
    0 < 2 ∧
    query_jitter_phase_count
        { render_width := 2, display_width := 3, p_out_phase_count_null := false } =
      (FFX_API_RETURN_OK, [QWrite.phaseCountOut 18]) :=
  ⟨by decide, (c5_jitter_phase_count.1 2 3 (by decide)).trans (by decide)⟩

/-- C6 counterexample: with render_width 0 and display_width 1920 the code
returns phase count 8, not the literal 32 stated by the claim (the fallback
ratio is the exact literal 1.0, so every float operation is exact here). -/
theorem c6_counterexample :
    query_jitter_phase_count
        { render_width := 0, display_width := 1920, p_out_phase_count_null := false } ≠
      (FFX_API_RETURN_OK, [QWrite.phaseCountOut 32]) := by decide

/-- C6 (amended): `jitter_phase_count(0, 1920)` returns 8 — the fallback ratio
1.0 gives `ceil(8 · 1²) = 8`, matching the spec's own parenthetical computation
rather than its literal `= 32`. -/
theorem c6_zero_render_width_phase_count :
    query_jitter_phase_count
        { render_width := 0, display_width := 1920, p_out_phase_count_null := false } =
      (FFX_API_RETURN_OK, [QWrite.phaseCountOut 8]) := by decide

/-- C7 counterexample: the claim says a negative index first wraps forward to
its nonnegative residue, but the code adds phase_count after the truncating `%`
without reducing again, so `halton_jitter(-1, 3)` (effective Halton index 3)
differs from `halton_jitter(2, 3)` at the residue 2 (effective Halton index 6):
the x components are 1/4 and -1/8 — dyadic values that are exact in `f32`. -/
theorem c7_counterexample : halton_jitter (-1) 3 ≠ halton_jitter 2 3 := by
  have e1 : ((Int.tmod (-1) 3 + 3).toNat + 1) = 3 := by decide
  have e2 : ((Int.tmod 2 3 + 3).toNat + 1) = 6 := by decide
  have hx1 : halton 3 2 = 3/4 := by
    simp [halton, haltonLoop]
    norm_num
  have hx2 : halton 6 2 = 3/8 := by
    simp [halton, haltonLoop]
    norm_num
  intro h
  simp only [halton_jitter] at h
  rw [if_neg (by norm_num : ¬ (3 : Int) ≤ 0), if_neg (by norm_num : ¬ (3 : Int) ≤ 0)] at h
  rw [e1, e2] at h
  have hfst := congrArg Prod.fst h
  simp only at hfst
  rw [hx1, hx2] at hfst
  norm_num at hfst

/-- C7 (amended): for every phase_count > 0 the offset sequence is periodic with
period phase_count over *nonnegative* indices — `halton_jitter(index, pc)`
equals `halton_jitter(index mod pc, pc)` whenever index ≥ 0 (a negative index
lands on a different effective phase than its nonnegative residue, see the
counterexample) — and for every phase_count ≤ 0 the result is (0, 0). -/
theorem c7_halton_jitter_periodic :
    (∀ index phase_count : Int, 0 < phase_count → 0 ≤ index →
      halton_jitter index phase_count = halton_jitter (index % phase_count) phase_count) ∧
    (∀ index phase_count : Int, phase_count ≤ 0 →
      halton_jitter index phase_count = (0, 0)) := by
  constructor
  · intro index pc hpc hidx
    unfold halton_jitter
    rw [if_neg (by omega), if_neg (by omega)]
    have h1 : Int.tmod index pc = index % pc := Int.tmod_eq_emod hidx (by omega)
    have h2 : Int.tmod (index % pc) pc = index % pc := by
      rw [Int.tmod_eq_emod (Int.emod_nonneg index (by omega)) (by omega)]
      exact Int.emod_emod_of_dvd index dvd_rfl
    rw [h1, h2]
  · intro index pc hpc
    unfold halton_jitter
    rw [if_pos hpc]

/-- C7 witness: at index 7, phase_count 3 the offset equals the one at the
residue 1; and non-positive phase_count 0 yields (0, 0). -/
theorem c7_halton_jitter_periodic_witness :
    ((0 : Int) < 3 ∧ (0 : Int) ≤ 7 ∧ halton_jitter 7 3 = halton_jitter 1 3) ∧
    ((0 : Int) ≤ 0 ∧ halton_jitter 5 0 = (0, 0)) :=
  ⟨⟨by decide, by decide,
    (c7_halton_jitter_periodic.1 7 3 (by decide) (by decide)).trans (by
      have e3 : (7 : Int) % 3 = 1 := by decide
      rw [e3])⟩,
   ⟨by decide, c7_halton_jitter_periodic.2 5 0 (by decide)⟩⟩

/-- C8: `handle_dispatch` returns the unknown-descriptor status (2) for every
type tag other than upscale and generate-reactive-mask; the parameter-error
status (6) for a null descriptor pointer, a null command recorder, or a null
color or output resource on an upscale dispatch; in all of these cases no GPU
command is recorded; and a generate-reactive-mask dispatch returns ok (0) while
recording no GPU work. -/
theorem c8_dispatch_validation :
    (∀ ctx : Ptr, handle_dispatch ctx none = (FFX_API_RETURN_ERROR_PARAMETER, [])) ∧
    (∀ (ctx : Ptr) (d : DispatchDescMemory),
      d.type_ ≠ FFX_API_DISPATCH_DESC_TYPE_UPSCALE →
      d.type_ ≠ FFX_API_DISPATCH_DESC_TYPE_UPSCALE_GENERATEREACTIVEMASK →
      handle_dispatch ctx (some d) = (FFX_API_RETURN_ERROR_UNKNOWN_DESCTYPE, [])) ∧
    (∀ (ctx : Ptr) (d : DispatchDescMemory),
      d.type_ = FFX_API_DISPATCH_DESC_TYPE_UPSCALE →
      d.upscale.command_list = Ptr.null →
      handle_dispatch ctx (some d) = (FFX_API_RETURN_ERROR_PARAMETER, [])) ∧
    (∀ (ctx : Ptr) (d : DispatchDescMemory),
      d.type_ = FFX_API_DISPATCH_DESC_TYPE_UPSCALE →
      (d.upscale.color.resource = Ptr.null ∨ d.upscale.output.resource = Ptr.null) →
      handle_dispatch ctx (some d) = (FFX_API_RETURN_ERROR_PARAMETER, [])) ∧
    (∀ (ctx : Ptr) (d : DispatchDescMemory),
      d.type_ = FFX_API_DISPATCH_DESC_TYPE_UPSCALE_GENERATEREACTIVEMASK →
      handle_dispatch ctx (some d) = (FFX_API_RETURN_OK, [])) := by
  refine ⟨fun ctx => rfl, ?_, ?_, ?_, ?_⟩
  · intro ctx d h1 h2
    simp [handle_dispatch, h1, h2]
  · intro ctx d h1 h2
    simp [handle_dispatch, h1, dispatch_upscale, h2]
  · intro ctx d h1 h2
    by_cases hc : d.upscale.command_list = Ptr.null
    · simp [handle_dispatch, h1, dispatch_upscale, hc]
    · rcases h2 with h2 | h2 <;>
        simp [handle_dispatch, h1, dispatch_upscale, hc, h2]
  · intro ctx d h1
    simp [handle_dispatch, h1, FFX_API_DISPATCH_DESC_TYPE_UPSCALE,
      FFX_API_DISPATCH_DESC_TYPE_UPSCALE_GENERATEREACTIVEMASK]

/-- C8 witness: the five branches at concrete inputs — null descriptor, unknown
tag 0, null command recorder, null color resource, generate-reactive-mask. -/
theorem c8_dispatch_validation_witness :
    handle_dispatch Ptr.null none = (FFX_API_RETURN_ERROR_PARAMETER, []) ∧
    handle_dispatch (Ptr.addr 9) (some exampleUnknownDispatchDesc) =
      (FFX_API_RETURN_ERROR_UNKNOWN_DESCTYPE, []) ∧
    handle_dispatch (Ptr.addr 9) (some exampleNullCmdDispatchDesc) =
      (FFX_API_RETURN_ERROR_PARAMETER, []) ∧
    handle_dispatch (Ptr.addr 9) (some exampleNullColorDispatchDesc) =
      (FFX_API_RETURN_ERROR_PARAMETER, []) ∧
    handle_dispatch (Ptr.addr 9) (some exampleReactiveDispatchDesc) =
      (FFX_API_RETURN_OK, []) :=
  ⟨c8_dispatch_validation.1 Ptr.null,
   c8_dispatch_validation.2.1 (Ptr.addr 9) exampleUnknownDispatchDesc (by decide) (by decide),
   c8_dispatch_validation.2.2.1 (Ptr.addr 9) exampleNullCmdDispatchDesc (by decide) (by decide),
   c8_dispatch_validation.2.2.2.1 (Ptr.addr 9) exampleNullColorDispatchDesc (by decide)
     (Or.inl (by decide)),
   c8_dispatch_validation.2.2.2.2 (Ptr.addr 9) exampleReactiveDispatchDesc (by decide)⟩

/-- C9: `destroy_context` returns the parameter-error status (6) and leaves
memory untouched when the handle or its pointee is null; on success it frees
the context record, nulls the handle's pointee, and returns ok (0), so an
immediate second destroy through the same handle hits the "already null" check
and returns the parameter error without touching freed memory. -/
theorem c9_destroy_context_lifecycle :
    (∀ h : ContextHeap, destroy_context Ptr.null h = (FFX_API_RETURN_ERROR_PARAMETER, h)) ∧
    (∀ (a : Nat) (h : ContextHeap), h.cells a = Ptr.null →
      destroy_context (Ptr.addr a) h = (FFX_API_RETURN_ERROR_PARAMETER, h)) ∧
    (∀ (a c : Nat) (h : ContextHeap), h.cells a = Ptr.addr c →
      (destroy_context (Ptr.addr a) h).1 = FFX_API_RETURN_OK ∧
      ((destroy_context (Ptr.addr a) h).2).cells a = Ptr.null ∧
      ((destroy_context (Ptr.addr a) h).2).ctxs c = none ∧
      destroy_context (Ptr.addr a) (destroy_context (Ptr.addr a) h).2 =
        (FFX_API_RETURN_ERROR_PARAMETER, (destroy_context (Ptr.addr a) h).2)) := by
  refine ⟨fun h => rfl, ?_, ?_⟩
  · intro a h hc
    simp [destroy_context, hc]
  · intro a c h hc
    refine ⟨by simp [destroy_context, hc], by simp [destroy_context, hc],
      by simp [destroy_context, hc], by simp [destroy_context, hc]⟩

/-- C9 witness: a concrete heap with one handle cell (address 0) pointing at one
allocated context record (address 1). -/
theorem c9_destroy_context_lifecycle_witness :
    exampleContextHeap.cells 0 = Ptr.addr 1 ∧
    (destroy_context (Ptr.addr 0) exampleContextHeap).1 = FFX_API_RETURN_OK ∧
    ((destroy_context (Ptr.addr 0) exampleContextHeap).2).cells 0 = Ptr.null ∧
    ((destroy_context (Ptr.addr 0) exampleContextHeap).2).ctxs 1 = none ∧
    (destroy_context (Ptr.addr 0) (destroy_context (Ptr.addr 0) exampleContextHeap).2).1 =
      FFX_API_RETURN_ERROR_PARAMETER := by
  have h := c9_destroy_context_lifecycle.2.2 0 1 exampleContextHeap rfl
  exact ⟨rfl, h.1, h.2.1, h.2.2.1, by rw [h.2.2.2]⟩

/-- C10: the query and dispatch entry points never read their context-handle
argument — for every fixed descriptor, any two context values (null included)
produce identical statuses, identical output-pointer writes, and identical
recorded GPU commands. -/
theorem c10_context_argument_ignored :
    ∀ (c1 c2 : Ptr) (qdesc : Option QueryDescMemory) (ddesc : Option DispatchDescMemory),
      handle_query c1 qdesc = handle_query c2 qdesc ∧
      handle_dispatch c1 ddesc = handle_dispatch c2 ddesc :=
  fun _ _ _ _ => ⟨rfl, rfl⟩

/-- Every barrier the transition builder actually produces targets all
subresources of its resource and carries exactly the given before/after states. -/
theorem transition_some_shape {r : Ptr} {s t : Nat} {b : D3D12_RESOURCE_TRANSITION_BARRIER}
    (h : resource_barrier_transition_d3d12 r s t = some b) :
    b = { pResource := r, Subresource := D3D12_RESOURCE_BARRIER_ALL_SUBRESOURCES,
          StateBefore := s, StateAfter := t } := by
  unfold resource_barrier_transition_d3d12 at h
  split at h
  · simp at h
  · simp only [Option.some.injEq] at h
    exact h.symm

/-- C2: equal before/after native states produce no barrier; distinct states
produce exactly one barrier over all subresources; on the valid upscale copy
path the recorded commands are exactly an optional coalesced barrier batch into
copy-source/copy-dest, the region copy, and an optional coalesced batch back to
the native translation of each resource's declared state, where each batch is
elided entirely when empty; and every barrier batch ever recorded is nonempty
with every barrier targeting all subresources. -/
theorem c2_upscale_barrier_bracketing :
    (∀ (r : Ptr) (s : Nat), resource_barrier_transition_d3d12 r s s = none) ∧
    (∀ (r : Ptr) (s t : Nat), s ≠ t →
      resource_barrier_transition_d3d12 r s t =
        some { pResource := r, Subresource := D3D12_RESOURCE_BARRIER_ALL_SUBRESOURCES,
               StateBefore := s, StateAfter := t }) ∧
    (∀ d : ffxDispatchDescUpscale,
      d.command_list ≠ Ptr.null → d.color.resource ≠ Ptr.null →
      d.output.resource ≠ Ptr.null →
      dispatch_upscale d =
        (FFX_API_RETURN_OK,
          (let pre :=
            [resource_barrier_transition_d3d12 d.color.resource
               (ffx_state_to_d3d12 d.color.state) D3D12_RESOURCE_STATE_COPY_SOURCE,
             resource_barrier_transition_d3d12 d.output.resource
               (ffx_state_to_d3d12 d.output.state) D3D12_RESOURCE_STATE_COPY_DEST].filterMap id
           if pre.isEmpty then [] else [GpuCommand.resourceBarrierCall pre]) ++
          [GpuCommand.copyTextureRegion d.output.resource 0 0 0 d.color.resource
            { left := 0, top := 0, front := 0,
              right := if d.render_size.width > 0 then d.render_size.width
                       else d.color.description.width,
              bottom := if d.render_size.height > 0 then d.render_size.height
                        else d.color.description.height,
              back := 1 }] ++
          (let post :=
            [resource_barrier_transition_d3d12 d.color.resource
               D3D12_RESOURCE_STATE_COPY_SOURCE (ffx_state_to_d3d12 d.color.state),
             resource_barrier_transition_d3d12 d.output.resource
               D3D12_RESOURCE_STATE_COPY_DEST (ffx_state_to_d3d12 d.output.state)].filterMap id
           if post.isEmpty then [] else [GpuCommand.resourceBarrierCall post]))) ∧
    (∀ (d : ffxDispatchDescUpscale) (bs : List D3D12_RESOURCE_TRANSITION_BARRIER),
      GpuCommand.resourceBarrierCall bs ∈ (dispatch_upscale d).2 →
      bs ≠ [] ∧ ∀ b ∈ bs, b.Subresource = D3D12_RESOURCE_BARRIER_ALL_SUBRESOURCES) := by
  have hnone : ∀ (r : Ptr) (s : Nat), resource_barrier_transition_d3d12 r s s = none := by
    intro r s
    simp [resource_barrier_transition_d3d12]
  refine ⟨hnone, ?_, ?_, ?_⟩
  · intro r s t hst
    simp [resource_barrier_transition_d3d12, hst]
  · intro d h1 h2 h3
    unfold dispatch_upscale
    rw [if_neg h1, if_neg (by simp [h2, h3])]
    simp only [resource_barrier_transition]
  · intro d bs hmem
    by_cases h1 : d.command_list = Ptr.null
    · simp [dispatch_upscale, h1] at hmem
    by_cases h2 : d.color.resource = Ptr.null ∨ d.output.resource = Ptr.null
    · simp [dispatch_upscale, h1, h2] at hmem
    simp only [dispatch_upscale, if_neg h1, if_neg h2, resource_barrier_transition,
      List.mem_append] at hmem
    have hbatch : ∀ (os : List (Option D3D12_RESOURCE_TRANSITION_BARRIER)),
        (∀ o ∈ os, ∀ b, o = some b →
          b.Subresource = D3D12_RESOURCE_BARRIER_ALL_SUBRESOURCES) →
        GpuCommand.resourceBarrierCall bs ∈
          (if (os.filterMap id).isEmpty then []
           else [GpuCommand.resourceBarrierCall (os.filterMap id)]) →
        bs ≠ [] ∧ ∀ b ∈ bs, b.Subresource = D3D12_RESOURCE_BARRIER_ALL_SUBRESOURCES := by
      intro os hos hm
      split at hm
      · simp at hm
      · next hne =>
        simp only [List.mem_singleton, GpuCommand.resourceBarrierCall.injEq] at hm
        subst hm
        refine ⟨by simpa [List.isEmpty_iff] using hne, ?_⟩
        intro b hb
        rw [List.mem_filterMap] at hb
        obtain ⟨o, ho, hob⟩ := hb
        exact hos o ho b hob
    rcases hmem with (hmem | hmem) | hmem
    · refine hbatch _ ?_ hmem
      intro o ho b hob
      simp only [List.mem_cons, List.not_mem_nil, or_false] at ho
      rcases ho with rfl | rfl <;> exact congrArg (·.Subresource) (transition_some_shape hob)
    · simp at hmem
    · refine hbatch _ ?_ hmem
      intro o ho b hob
      simp only [List.mem_cons, List.not_mem_nil, or_false] at ho
      rcases ho with rfl | rfl <;> exact congrArg (·.Subresource) (transition_some_shape hob)

/-- C2 witness: concrete barrier construction and a concrete valid upscale
dispatch (color declared pixel-read, output declared common, render size
1280x720), whose recorded commands are the two-barrier batch in, the region
copy, and the two-barrier batch out. -/
theorem c2_upscale_barrier_bracketing_witness :
    resource_barrier_transition_d3d12 (Ptr.addr 2) 128 128 = none ∧
    resource_barrier_transition_d3d12 (Ptr.addr 2) 128 2048 =
      some { pResource := Ptr.addr 2, Subresource := D3D12_RESOURCE_BARRIER_ALL_SUBRESOURCES,
             StateBefore := 128, StateAfter := 2048 } ∧
    dispatch_upscale exampleUpscaleDesc =
      (FFX_API_RETURN_OK,
       [GpuCommand.resourceBarrierCall
          [{ pResource := Ptr.addr 2, Subresource := 0xffffffff,
             StateBefore := 128, StateAfter := 2048 },
           { pResource := Ptr.addr 3, Subresource := 0xffffffff,
             StateBefore := 0, StateAfter := 1024 }],
        GpuCommand.copyTextureRegion (Ptr.addr 3) 0 0 0 (Ptr.addr 2)
          { left := 0, top := 0, front := 0, right := 1280, bottom := 720, back := 1 },
        GpuCommand.resourceBarrierCall
          [{ pResource := Ptr.addr 2, Subresource := 0xffffffff,
             StateBefore := 2048, StateAfter := 128 },
           { pResource := Ptr.addr 3, Subresource := 0xffffffff,
             StateBefore := 1024, StateAfter := 0 }]]) :=
  ⟨c2_upscale_barrier_bracketing.1 (Ptr.addr 2) 128,
   c2_upscale_barrier_bracketing.2.1 (Ptr.addr 2) 128 2048 (by decide),
   (c2_upscale_barrier_bracketing.2.2.1 exampleUpscaleDesc (by decide) (by decide)
     (by decide)).trans (by decide)⟩
